import Mathlib

/-!
Shallow embedding of the calendar/meeting core of the video-chat backend
(`src/services/calendarService.ts` = src/unnamed/part_004, together with
`src/models/Meeting.ts`, `src/models/MeetingParticipant.ts` and
`src/utils/agoraUtils.ts`).

Modelling conventions:
* JavaScript `Date` values are modelled as `Nat` milliseconds since the epoch;
  every comparison and subtraction in the source is a plain numeric comparison
  on `Date.getTime()`, so this is exact for the code under consideration.
  `setHours(h, 0, 0, 0)` on a midnight timestamp becomes `day + h * 3600000`.
* The Sequelize store is modelled as an explicit `DB` record holding the two
  tables and their auto-increment counters.  Every mutating service method is
  a function `DB → ... → DB × Except AppError α`: the first component is the
  store after the call (unchanged when the method throws), mirroring the fact
  that the source performs every write through `Model.create`/`update`.
* JavaScript truthiness tests on optional strings / numbers (`if (password)`,
  `if (userId)`, `if (excludeMeetingId)`) are modelled by `truthyStr` /
  `truthyNat`: `""`, `0`, `undefined` are falsy.
* Randomness (`crypto.randomInt`) and the clock (`new Date()`) are supplied
  through an explicit `Env` record.
-/

/-- Meeting.status enum of `src/models/Meeting.ts`. -/
inductive MeetingStatus
  | scheduled
  | in_progress
  | completed
  | cancelled
deriving DecidableEq, Repr

/-- Meeting.meetingType enum of `src/models/Meeting.ts`. -/
inductive MeetingType
  | one_on_one
  | group
  | presentation
  | workshop
  | other
deriving DecidableEq, Repr

/-- RecurrenceType enum of `src/models/Meeting.ts`. -/
inductive RecurrenceType
  | none
  | daily
  | weekly
  | monthly
deriving DecidableEq, Repr

/-- ParticipantStatus enum of `src/models/MeetingParticipant.ts`. -/
inductive ParticipantStatus
  | invited
  | accepted
  | declined
  | tentative
  | no_response
deriving DecidableEq, Repr

/-- ParticipantRole enum of `src/models/MeetingParticipant.ts`. -/
inductive ParticipantRole
  | organizer
  | presenter
  | attendee
  | optional
deriving DecidableEq, Repr

/-- A row of the `meetings` table (MeetingAttributes in `src/models/Meeting.ts`).
`createdAt`/`updatedAt` bookkeeping timestamps are omitted: no service logic
reads them. -/
structure Meeting where
  id : Nat
  title : String
  description : Option String := Option.none
  startTime : Nat
  endTime : Nat
  timezone : String := "UTC"
  location : Option String := Option.none
  meetingLink : Option String := Option.none
  meetingType : MeetingType := MeetingType.group
  status : MeetingStatus := MeetingStatus.scheduled
  maxParticipants : Option Nat := Option.none
  isRecurring : Bool := false
  recurrenceType : Option RecurrenceType := Option.none
  recurrenceEndDate : Option Nat := Option.none
  organizerId : Nat
  agoraChannelName : Option String := Option.none
  agoraAppId : Option String := Option.none
  meetingPassword : Option String := Option.none
  isPasswordProtected : Bool := false
  allowGuestAccess : Bool := true
deriving DecidableEq, Repr

/-- A row of the `meeting_participants` table
(MeetingParticipantAttributes in `src/models/MeetingParticipant.ts`). -/
structure MeetingParticipant where
  id : Nat
  meetingId : Nat
  userId : Nat
  email : Option String := Option.none
  name : Option String := Option.none
  status : ParticipantStatus := ParticipantStatus.invited
  role : ParticipantRole := ParticipantRole.attendee
  joinedAt : Option Nat := Option.none
  leftAt : Option Nat := Option.none
  responseDate : Option Nat := Option.none
  notes : Option String := Option.none
deriving DecidableEq, Repr

/-- The persistent store: the two tables touched by CalendarService plus their
auto-increment counters. -/
structure DB where
  meetings : List Meeting := []
  participants : List MeetingParticipant := []
  nextMeetingId : Nat := 1
  nextParticipantId : Nat := 1
deriving DecidableEq, Repr

/-- AppError of `src/utils/AppError.ts`: a message plus an HTTP status code. -/
structure AppError where
  message : String
  statusCode : Nat
deriving DecidableEq, Repr

/-- JavaScript truthiness of an optional string: `undefined` and `""` are falsy. -/
def truthyStr : Option String → Bool
  | Option.none => false
  | Option.some s => decide (s ≠ "")

/-- JavaScript truthiness of an optional number: `undefined` and `0` are falsy. -/
def truthyNat : Option Nat → Bool
  | Option.none => false
  | Option.some n => decide (n ≠ 0)

/-- `Meeting.requiresPassword()` (`src/models/Meeting.ts`):
`this.isPasswordProtected && !!this.meetingPassword`. -/
def Meeting.requiresPassword (m : Meeting) : Bool :=
  m.isPasswordProtected && truthyStr m.meetingPassword

/-- `Meeting.validatePassword(input)` (`src/models/Meeting.ts`):
`this.meetingPassword === inputPassword` (strict string equality; an absent
stored password compares unequal to every string). -/
def Meeting.validatePassword (m : Meeting) (inputPassword : String) : Bool :=
  match m.meetingPassword with
  | Option.some s => decide (s = inputPassword)
  | Option.none => false

/-- `Meeting.canBeModified()` : status is `scheduled` and the start time
is still in the future (`isUpcoming`). -/
def Meeting.canBeModified (m : Meeting) (now : Nat) : Bool :=
  decide (m.status = MeetingStatus.scheduled) && decide (now < m.startTime)

/-- The join information object built by `Meeting.getJoinInfo()`: exactly the
five fields returned by the source, and nothing else. -/
structure JoinInfo where
  meetingId : Nat
  agoraChannelName : Option String
  agoraAppId : Option String
  requiresPassword : Bool
  allowGuestAccess : Bool
deriving DecidableEq, Repr

/-- `Meeting.getJoinInfo()` of `src/models/Meeting.ts`. -/
def Meeting.getJoinInfo (m : Meeting) : JoinInfo :=
  { meetingId := m.id
    agoraChannelName := m.agoraChannelName
    agoraAppId := m.agoraAppId
    requiresPassword := m.requiresPassword
    allowGuestAccess := m.allowGuestAccess }

/-- Lookup by primary key: `Meeting.findByPk(meetingId)`. -/
def findMeeting (db : DB) (meetingId : Nat) : Option Meeting :=
  db.meetings.find? (fun m => decide (m.id = meetingId))

/-- The meeting ids collected by the sub-query
`MeetingParticipant.findAll({ where: { userId, status: 'accepted' } })`
inside `checkTimeConflicts`. -/
def acceptedParticipantMeetingIds (db : DB) (userId : Nat) : List Nat :=
  (db.participants.filter
      (fun p => decide (p.userId = userId ∧ p.status = ParticipantStatus.accepted))).map
    (fun p => p.meetingId)

/-- The actor-relation disjunction that `checkTimeConflicts` builds FIRST in
its where-clause object literal (`organizerId = userId` OR the meeting id is
among the actor's accepted participations).  In the source this value is lost
at runtime: the object literal assigns the computed key `[Op.or]` a second
time further down, and the later assignment silently overwrites this one.
It is kept here to state that divergence. -/
def actorClause (db : DB) (userId : Nat) (m : Meeting) : Bool :=
  decide (m.organizerId = userId) || (acceptedParticipantMeetingIds db userId).contains m.id

/-- The time-overlap disjunction of `checkTimeConflicts` (the SECOND `[Op.or]`
in the object literal, the one that survives): `startTime BETWEEN [s,e]` OR
`endTime BETWEEN [s,e]` OR (`startTime <= s` AND `endTime >= e`).  SQL
`BETWEEN` is inclusive on both bounds. -/
def timeOverlapClause (startTime endTime : Nat) (m : Meeting) : Bool :=
  (decide (startTime ≤ m.startTime) && decide (m.startTime ≤ endTime)) ||
  (decide (startTime ≤ m.endTime) && decide (m.endTime ≤ endTime)) ||
  (decide (m.startTime ≤ startTime) && decide (endTime ≤ m.endTime))

/-- The `if (excludeMeetingId) whereClause.id = { [Op.ne]: excludeMeetingId }`
guard (JavaScript truthiness: an id of 0 would not be excluded). -/
def excludeClause (excludeMeetingId : Option Nat) (m : Meeting) : Bool :=
  match excludeMeetingId with
  | Option.some e => if e ≠ 0 then decide (m.id ≠ e) else true
  | Option.none => true

/-- `CalendarService.checkTimeConflicts(userId, startTime, endTime,
excludeMeetingId?)`.  The source builds a where-clause object literal whose
computed key `[Op.or]` appears twice: first with the actor-relation
disjunction (`actorClause`), then with the time-overlap disjunction.  By
JavaScript object-literal semantics the second assignment overwrites the
first, so the effective filter is `status != 'cancelled'` AND
`timeOverlapClause` AND the optional id exclusion — the `userId` argument has
no effect on the result. -/
def checkTimeConflicts (db : DB) (userId : Nat) (startTime endTime : Nat)
    (excludeMeetingId : Option Nat := Option.none) : List Meeting :=
  db.meetings.filter (fun m =>
    decide (m.status ≠ MeetingStatus.cancelled) &&
    timeOverlapClause startTime endTime m &&
    excludeClause excludeMeetingId m)

/-- The result record of `CalendarService.validateMeetingAccess`. -/
structure AccessResult where
  canJoin : Bool
  meeting : Option Meeting := Option.none
  joinInfo : Option JoinInfo := Option.none
  error : Option String := Option.none
deriving DecidableEq, Repr

/-- The `isParticipant` computation inside `validateMeetingAccess`:
only run when `userId` is truthy, and looks for any MeetingParticipant row
with this meeting id and user id (any response status counts). -/
def isParticipantCheck (db : DB) (meetingId : Nat) (userId : Option Nat) : Bool :=
  if truthyNat userId then
    (db.participants.find? (fun p =>
      decide (p.meetingId = meetingId ∧ p.userId = userId.getD 0))).isSome
  else false

/-- The tail of `validateMeetingAccess` shared by both password branches:
the guest-access check followed by the grant. -/
def guestGateResult (m : Meeting) (isParticipant : Bool) : AccessResult :=
  if !isParticipant && !m.allowGuestAccess then
    { canJoin := false, error := Option.some "Guest access is not allowed for this meeting" }
  else
    { canJoin := true, meeting := Option.some m, joinInfo := Option.some m.getJoinInfo }

/-- `CalendarService.validateMeetingAccess(meetingId, password?, userId?)`:
not-found, cancelled and completed checks, then the password gate (only when
`meeting.requiresPassword()` holds), then the guest-access gate, then grant.
`if (!password)` is a truthiness test, so an empty-string password counts as
absent. -/
def validateMeetingAccess (db : DB) (meetingId : Nat)
    (password : Option String := Option.none)
    (userId : Option Nat := Option.none) : AccessResult :=
  match findMeeting db meetingId with
  | Option.none => { canJoin := false, error := Option.some "Meeting not found" }
  | Option.some m =>
    if m.status = MeetingStatus.cancelled then
      { canJoin := false, error := Option.some "Meeting has been cancelled" }
    else if m.status = MeetingStatus.completed then
      { canJoin := false, error := Option.some "Meeting has already ended" }
    else
      let isParticipant := isParticipantCheck db meetingId userId
      if m.requiresPassword then
        if !truthyStr password then
          { canJoin := false, error := Option.some "Meeting password is required" }
        else if !m.validatePassword (password.getD "") then
          { canJoin := false, error := Option.some "Invalid meeting password" }
        else guestGateResult m isParticipant
      else guestGateResult m isParticipant

/-- The password alphabet of `generateMeetingPassword`
(`src/utils/agoraUtils.ts`): unambiguous letters and digits, 55 characters. -/
def passwordCharset : List Char :=
  "ABCDEFGHJKMNPQRSTUVWXYZabcdefghijkmnpqrstuvwxyz23456789".toList

/-- `generateMeetingPassword(length)` (`src/utils/agoraUtils.ts`): `length`
characters drawn from `passwordCharset` at indices produced by
`crypto.randomInt(0, charset.length)`; the random source is passed in
explicitly as a function into `Fin 55`. -/
def generateMeetingPassword (randIdx : Nat → Fin 55) (length : Nat := 8) : String :=
  String.mk ((List.range length).map (fun i =>
    passwordCharset.get (Fin.cast (by decide) (randIdx i))))

/-- Membership in the character class of the `validateMeetingPassword` regex
`[a-zA-Z0-9!@#$%^&*()_+\-=\[\]{};':"\\|,.<>\/?]` — ASCII letters, digits, and
the 30 listed punctuation characters (given by code point). -/
def allowedPasswordChar (c : Char) : Bool :=
  c.isAlpha || c.isDigit ||
  ([33, 64, 35, 36, 37, 94, 38, 42, 40, 41, 95, 43, 45, 61, 91, 93, 123, 125,
    59, 58, 39, 34, 92, 124, 44, 46, 60, 62, 47, 63] : List Nat).contains c.toNat

/-- Result record of `validateMeetingPassword` (`src/utils/agoraUtils.ts`). -/
structure PasswordValidation where
  isValid : Bool
  errors : List String
deriving DecidableEq, Repr

/-- `validateMeetingPassword(password)` (`src/utils/agoraUtils.ts`): collects
an error for length < 4, length > 50, and any character outside the allowed
class; valid iff no errors. -/
def validateMeetingPassword (password : String) : PasswordValidation :=
  let errors : List String :=
    (if password.length < 4 then ["Password must be at least 4 characters long"] else []) ++
    (if password.length > 50 then ["Password cannot exceed 50 characters"] else []) ++
    (if !password.toList.all allowedPasswordChar then ["Password contains invalid characters"] else [])
  { isValid := errors.isEmpty, errors := errors }

/-- Ambient effects supplied to the service: the clock (`new Date()`),
the random index source of `crypto.randomInt(0, 55)`, the generated Agora
channel name (`generateAgoraChannelName`, which mixes the title with
`Date.now()` and random bytes), and `process.env.AGORA_APP_ID`. -/
structure Env where
  now : Nat
  randIdx : Nat → Fin 55
  genChannelName : String → String
  agoraAppId : Option String := Option.none

/-- `CalendarService.validateMeetingTimes(startTime, endTime)` — private
helper of create/update: start must be strictly in the future, end strictly
after start, duration at most 8 hours (milliseconds); each violation throws
an AppError with status 400. -/
def validateMeetingTimes (now startTime endTime : Nat) : Except AppError Unit :=
  if startTime ≤ now then
    Except.error { message := "Start time must be in the future", statusCode := 400 }
  else if endTime ≤ startTime then
    Except.error { message := "End time must be after start time", statusCode := 400 }
  else if endTime - startTime > 8 * 60 * 60 * 1000 then
    Except.error { message := "Meeting duration cannot exceed 8 hours", statusCode := 400 }
  else Except.ok ()

/-- One entry of the `participants` array accepted by
`createMeeting`/`addParticipants`. -/
structure ParticipantEntry where
  userId : Option Nat := Option.none
  email : Option String := Option.none
  name : Option String := Option.none
  role : Option ParticipantRole := Option.none
deriving DecidableEq, Repr

/-- The duplicate test of `addParticipants`:
`MeetingParticipant.findOne({ where: { meetingId, ...(participant.userId ?
{ userId } : { email: participant.email }) } })`.  The spread condition is a
truthiness test on the entry's userId (0 and `undefined` fall through to the
email key). -/
def participantMatch (meetingId : Nat) (e : ParticipantEntry)
    (p : MeetingParticipant) : Bool :=
  decide (p.meetingId = meetingId) &&
  (if truthyNat e.userId then decide (p.userId = e.userId.getD 0)
   else decide (p.email = e.email))

/-- The loop body of `addParticipants`: walk the entries in order; an entry
whose key already matches an existing row is skipped, otherwise a new row is
created with `userId: participant.userId || 0`, `role: participant.role ||
'attendee'`, `status: 'invited'`.  Returns the updated store and the created
rows in order. -/
def addParticipantsGo (db : DB) (meetingId : Nat) :
    List ParticipantEntry → DB × List MeetingParticipant
  | [] => (db, [])
  | e :: rest =>
    match db.participants.find? (participantMatch meetingId e) with
    | Option.some _ => addParticipantsGo db meetingId rest
    | Option.none =>
      let newP : MeetingParticipant :=
        { id := db.nextParticipantId
          meetingId := meetingId
          userId := e.userId.getD 0
          email := e.email
          name := e.name
          role := e.role.getD ParticipantRole.attendee
          status := ParticipantStatus.invited }
      let db' : DB :=
        { db with
          participants := db.participants ++ [newP]
          nextParticipantId := db.nextParticipantId + 1 }
      let rec' := addParticipantsGo db' meetingId rest
      (rec'.1, newP :: rec'.2)

/-- `CalendarService.addParticipants(meetingId, participants)`: 404 when the
meeting does not exist, otherwise the loop above. -/
def addParticipants (db : DB) (meetingId : Nat) (entries : List ParticipantEntry) :
    DB × Except AppError (List MeetingParticipant) :=
  match findMeeting db meetingId with
  | Option.none => (db, Except.error { message := "Meeting not found", statusCode := 404 })
  | Option.some _ =>
    let r := addParticipantsGo db meetingId entries
    (r.1, Except.ok r.2)

/-- The argument record of `createMeeting`
(`CreateMeetingData = Omit<MeetingCreationAttributes,'organizerId'>` plus the
participants array and the Agora options).  The `agoraChannelName`,
`agoraAppId`, `meetingPassword` and `isPasswordProtected` creation attributes
are omitted here because `createMeeting` unconditionally overwrites them in
its `Meeting.create` call. -/
structure CreateMeetingData where
  title : String
  description : Option String := Option.none
  startTime : Nat
  endTime : Nat
  timezone : String := "UTC"
  location : Option String := Option.none
  meetingLink : Option String := Option.none
  meetingType : MeetingType := MeetingType.group
  status : MeetingStatus := MeetingStatus.scheduled
  maxParticipants : Option Nat := Option.none
  isRecurring : Bool := false
  recurrenceType : Option RecurrenceType := Option.none
  recurrenceEndDate : Option Nat := Option.none
  allowGuestAccess : Option Bool := Option.none
  participants : List ParticipantEntry := []
  generateAgoraChannel : Bool := false
  customAgoraChannelName : Option String := Option.none
  generatePassword : Bool := false
  customPassword : Option String := Option.none

/-- Channel-name resolution inside `createMeeting`: only runs when
`generateAgoraChannel || customAgoraChannelName` is truthy; a truthy custom
name longer than 100 characters is a 400 error, otherwise it wins; else a
name is generated from the title. -/
def resolveChannelName (env : Env) (d : CreateMeetingData) :
    Except AppError (Option String) :=
  if d.generateAgoraChannel || truthyStr d.customAgoraChannelName then
    if truthyStr d.customAgoraChannelName then
      let c := d.customAgoraChannelName.getD ""
      if c.length > 100 then
        Except.error { message := "Agora channel name cannot exceed 100 characters", statusCode := 400 }
      else Except.ok (Option.some c)
    else Except.ok (Option.some (env.genChannelName d.title))
  else Except.ok Option.none

/-- Password resolution inside `createMeeting`: only runs when
`generatePassword || customPassword` is truthy; a truthy custom password is
validated (rejection is a 400 error naming the failed rules), otherwise an
8-character password is generated; either way `isPasswordProtected` becomes
true.  Returns `(meetingPassword, isPasswordProtected)`. -/
def resolvePassword (env : Env) (d : CreateMeetingData) :
    Except AppError (Option String × Bool) :=
  if d.generatePassword || truthyStr d.customPassword then
    if truthyStr d.customPassword then
      let c := d.customPassword.getD ""
      let v := validateMeetingPassword c
      if !v.isValid then
        Except.error
          { message := "Invalid password: " ++ String.intercalate ", " v.errors
            statusCode := 400 }
      else Except.ok (Option.some c, true)
    else Except.ok (Option.some (generateMeetingPassword env.randIdx 8), true)
  else Except.ok (Option.none, false)

/-- The Meeting row persisted by `createMeeting`'s `Meeting.create` call:
the creation attributes spread over the resolved Agora fields, the organizer,
and `allowGuestAccess ?? true`. -/
def createdMeeting (env : Env) (db : DB) (organizerId : Nat)
    (d : CreateMeetingData) (agoraChannelName : Option String)
    (meetingPassword : Option String) (isPasswordProtected : Bool) : Meeting :=
  { id := db.nextMeetingId
    title := d.title
    description := d.description
    startTime := d.startTime
    endTime := d.endTime
    timezone := d.timezone
    location := d.location
    meetingLink := d.meetingLink
    meetingType := d.meetingType
    status := d.status
    maxParticipants := d.maxParticipants
    isRecurring := d.isRecurring
    recurrenceType := d.recurrenceType
    recurrenceEndDate := d.recurrenceEndDate
    organizerId := organizerId
    agoraChannelName := agoraChannelName
    agoraAppId := env.agoraAppId
    meetingPassword := meetingPassword
    isPasswordProtected := isPasswordProtected
    allowGuestAccess := d.allowGuestAccess.getD true }

/-- `CalendarService.createMeeting(organizerId, meetingData)`: validate the
times, check conflicts for the organizer (error 400 naming the conflicting
titles), resolve channel name and password, persist the Meeting (with
`allowGuestAccess ?? true`), create the organizer's own participant row
(`accepted`/`organizer`, responseDate = now), then add the supplied
participants.  The returned store is unchanged on every error path that
precedes the first write. -/
def createMeeting (env : Env) (db : DB) (organizerId : Nat)
    (d : CreateMeetingData) : DB × Except AppError Meeting :=
  match validateMeetingTimes env.now d.startTime d.endTime with
  | Except.error e => (db, Except.error e)
  | Except.ok _ =>
    let conflicts := checkTimeConflicts db organizerId d.startTime d.endTime Option.none
    if conflicts.isEmpty = false then
      (db, Except.error
        { message := "Time conflict detected with existing meetings: " ++
            String.intercalate ", " (conflicts.map (fun m => m.title))
          statusCode := 400 })
    else
      match resolveChannelName env d with
      | Except.error e => (db, Except.error e)
      | Except.ok agoraChannelName =>
        match resolvePassword env d with
        | Except.error e => (db, Except.error e)
        | Except.ok pw =>
          let meeting : Meeting :=
            createdMeeting env db organizerId d agoraChannelName pw.1 pw.2
          let organizerRow : MeetingParticipant :=
            { id := db.nextParticipantId
              meetingId := meeting.id
              userId := organizerId
              status := ParticipantStatus.accepted
              role := ParticipantRole.organizer
              responseDate := Option.some env.now }
          let db1 : DB :=
            { db with
              meetings := db.meetings ++ [meeting]
              nextMeetingId := db.nextMeetingId + 1
              participants := db.participants ++ [organizerRow]
              nextParticipantId := db.nextParticipantId + 1 }
          if d.participants.isEmpty then (db1, Except.ok meeting)
          else
            match addParticipants db1 meeting.id d.participants with
            | (db2, Except.error e) => (db2, Except.error e)
            | (db2, Except.ok _) => (db2, Except.ok meeting)

/-- The argument record of `updateMeeting` (`UpdateMeetingData`): every field
optional, and note that `status` is NOT among them. -/
structure UpdateMeetingData where
  title : Option String := Option.none
  description : Option String := Option.none
  startTime : Option Nat := Option.none
  endTime : Option Nat := Option.none
  timezone : Option String := Option.none
  location : Option String := Option.none
  meetingLink : Option String := Option.none
  meetingType : Option MeetingType := Option.none
  maxParticipants : Option Nat := Option.none
  agoraChannelName : Option String := Option.none
  meetingPassword : Option String := Option.none
  isPasswordProtected : Option Bool := Option.none
  allowGuestAccess : Option Bool := Option.none
deriving DecidableEq, Repr

/-- Merge an optional update value over a stored optional field
(`meeting.update` sets only the keys present in the update object). -/
def updField {α : Type} (new : Option α) (old : Option α) : Option α :=
  match new with
  | Option.some v => Option.some v
  | Option.none => old

/-- `meeting.update(updateData)`: apply exactly the provided fields.
The meeting's `id`, `status` and organizer are untouched —
`UpdateMeetingData` has no such keys. -/
def applyUpdate (m : Meeting) (u : UpdateMeetingData) : Meeting :=
  { m with
    title := u.title.getD m.title
    description := updField u.description m.description
    startTime := u.startTime.getD m.startTime
    endTime := u.endTime.getD m.endTime
    timezone := u.timezone.getD m.timezone
    location := updField u.location m.location
    meetingLink := updField u.meetingLink m.meetingLink
    meetingType := u.meetingType.getD m.meetingType
    maxParticipants := updField u.maxParticipants m.maxParticipants
    agoraChannelName := updField u.agoraChannelName m.agoraChannelName
    meetingPassword := updField u.meetingPassword m.meetingPassword
    isPasswordProtected := u.isPasswordProtected.getD m.isPasswordProtected
    allowGuestAccess := u.allowGuestAccess.getD m.allowGuestAccess }

/-- Persist a row mutation made through a found Meeting instance: every row
with the given primary key (unique in practice) is replaced by `f` applied
to it. -/
def updateMeetingRow (db : DB) (meetingId : Nat) (f : Meeting → Meeting) : DB :=
  { db with
    meetings := db.meetings.map (fun m => if m.id = meetingId then f m else m) }

/-- `CalendarService.updateMeeting(meetingId, userId, updateData)`: 404 when
absent, 403 for a non-organizer, 400 when not modifiable; when a start or end
time is provided the merged times are re-validated and conflicts re-checked
excluding the meeting itself (`updateData.startTime || meeting.startTime` is
a truthiness fallback — Date objects are always truthy); finally the partial
update is applied. -/
def updateMeeting (env : Env) (db : DB) (meetingId userId : Nat)
    (u : UpdateMeetingData) : DB × Except AppError Meeting :=
  match findMeeting db meetingId with
  | Option.none => (db, Except.error { message := "Meeting not found", statusCode := 404 })
  | Option.some m =>
    if m.organizerId ≠ userId then
      (db, Except.error { message := "Only the organizer can update this meeting", statusCode := 403 })
    else if !m.canBeModified env.now then
      (db, Except.error { message := "This meeting cannot be modified", statusCode := 400 })
    else
      let timeCheck : Except AppError Unit :=
        if u.startTime.isSome || u.endTime.isSome then
          let s := u.startTime.getD m.startTime
          let e := u.endTime.getD m.endTime
          match validateMeetingTimes env.now s e with
          | Except.error er => Except.error er
          | Except.ok _ =>
            let conflicts := checkTimeConflicts db userId s e (Option.some meetingId)
            if conflicts.isEmpty then Except.ok ()
            else Except.error
              { message := "Time conflict detected with existing meetings: " ++
                  String.intercalate ", " (conflicts.map (fun c => c.title))
                statusCode := 400 }
        else Except.ok ()
      match timeCheck with
      | Except.error er => (db, Except.error er)
      | Except.ok _ =>
        (updateMeetingRow db meetingId (fun mm => applyUpdate mm u),
         Except.ok (applyUpdate m u))

/-- `CalendarService.cancelMeeting(meetingId, userId)`: 404 when absent, 403
for a non-organizer, 400 when the status is already `cancelled` (explicitly
an error, not a no-op), else the single write `status := cancelled`. -/
def cancelMeeting (db : DB) (meetingId userId : Nat) : DB × Except AppError Unit :=
  match findMeeting db meetingId with
  | Option.none => (db, Except.error { message := "Meeting not found", statusCode := 404 })
  | Option.some m =>
    if m.organizerId ≠ userId then
      (db, Except.error { message := "Only the organizer can cancel this meeting", statusCode := 403 })
    else if m.status = MeetingStatus.cancelled then
      (db, Except.error { message := "Meeting is already cancelled", statusCode := 400 })
    else
      (updateMeetingRow db meetingId (fun mm => { mm with status := MeetingStatus.cancelled }),
       Except.ok ())

/-- `CalendarService.updateMeetingPassword(meetingId, organizerId,
newPassword?, removePassword)`: 404/403 guards, then either clear the
password, set a validated explicit password (`else if (newPassword)` is a
truthiness test), or store a freshly generated 8-character password. -/
def updateMeetingPassword (env : Env) (db : DB) (meetingId organizerId : Nat)
    (newPassword : Option String := Option.none) (removePassword : Bool := false) :
    DB × Except AppError Meeting :=
  match findMeeting db meetingId with
  | Option.none => (db, Except.error { message := "Meeting not found", statusCode := 404 })
  | Option.some m =>
    if m.organizerId ≠ organizerId then
      (db, Except.error
        { message := "Only the organizer can update the meeting password", statusCode := 403 })
    else if removePassword then
      (updateMeetingRow db meetingId (fun mm =>
        { mm with meetingPassword := Option.none, isPasswordProtected := false }),
       Except.ok { m with meetingPassword := Option.none, isPasswordProtected := false })
    else if truthyStr newPassword then
      let p := newPassword.getD ""
      let v := validateMeetingPassword p
      if !v.isValid then
        (db, Except.error
          { message := "Invalid password: " ++ String.intercalate ", " v.errors
            statusCode := 400 })
      else
        (updateMeetingRow db meetingId (fun mm =>
          { mm with meetingPassword := Option.some p, isPasswordProtected := true }),
         Except.ok { m with meetingPassword := Option.some p, isPasswordProtected := true })
    else
      let g := generateMeetingPassword env.randIdx 8
      (updateMeetingRow db meetingId (fun mm =>
        { mm with meetingPassword := Option.some g, isPasswordProtected := true }),
       Except.ok { m with meetingPassword := Option.some g, isPasswordProtected := true })

/-- `CalendarService.updateParticipantResponse(meetingId, userId, status,
notes?)`: 404 when no participant row matches, else update that row's status,
response date and notes.  The meetings table is untouched. -/
def updateParticipantResponse (env : Env) (db : DB) (meetingId userId : Nat)
    (status : ParticipantStatus) (notes : Option String := Option.none) :
    DB × Except AppError MeetingParticipant :=
  match db.participants.find? (fun p =>
      decide (p.meetingId = meetingId ∧ p.userId = userId)) with
  | Option.none => (db, Except.error { message := "Participant not found", statusCode := 404 })
  | Option.some p =>
    let upd := fun (q : MeetingParticipant) =>
      { q with status := status, responseDate := Option.some env.now, notes := notes }
    ({ db with
       participants := db.participants.map (fun q =>
         if q.meetingId = meetingId ∧ q.userId = userId then upd q else q) },
     Except.ok (upd p))

/-- The status of the first meeting row with a given id (the view used by
the temporal claims about cancellation). -/
def statusOf (db : DB) (meetingId : Nat) : Option MeetingStatus :=
  (findMeeting db meetingId).map (fun m => m.status)

/-- `CalendarFilters` of the calendar service. -/
structure CalendarFilters where
  startDate : Option Nat := Option.none
  endDate : Option Nat := Option.none
  status : Option MeetingStatus := Option.none
  meetingType : Option MeetingType := Option.none
  organizerId : Option Nat := Option.none
  participantId : Option Nat := Option.none
deriving DecidableEq, Repr

/-- The `whereClause` a `getMeetings` call builds from its filters:
`startTime` in `[startDate, endDate]` when given, plus the optional status,
meeting-type and organizer equality filters (the organizer filter is guarded
by a numeric truthiness test in the source). -/
def whereMatch (f : CalendarFilters) (m : Meeting) : Bool :=
  (f.startDate.all (fun s => decide (s ≤ m.startTime))) &&
  (f.endDate.all (fun e => decide (m.startTime ≤ e))) &&
  (f.status.all (fun s => decide (m.status = s))) &&
  (f.meetingType.all (fun t => decide (m.meetingType = t))) &&
  (if truthyNat f.organizerId then decide (m.organizerId = f.organizerId.getD 0) else true)

/-- The participant branch of `getMeetings`: all MeetingParticipant rows of
the given user, inner-joined (`required: true`) with the meetings matching
the where clause. -/
def participantJoin (db : DB) (pUserId : Nat) (f : CalendarFilters) : List Meeting :=
  (db.participants.filter (fun p => decide (p.userId = pUserId))).filterMap
    (fun p =>
      match db.meetings.find? (fun m => decide (m.id = p.meetingId)) with
      | Option.some m => if whereMatch f m then Option.some m else Option.none
      | Option.none => Option.none)

/-- Helper loop of `dedupById`, carrying the ids already kept. -/
def dedupByIdGo (seen : List Nat) : List Meeting → List Meeting
  | [] => []
  | m :: rest =>
    if seen.contains m.id then dedupByIdGo seen rest
    else m :: dedupByIdGo (m.id :: seen) rest

/-- The deduplication of `getMeetings`
(`self.findIndex(m => m.id === meeting.id) === index`): keep the first
occurrence of every meeting id. -/
def dedupById (l : List Meeting) : List Meeting :=
  dedupByIdGo [] l

/-- Insert a meeting into a list sorted by ascending start time. -/
def insertByStart (m : Meeting) : List Meeting → List Meeting
  | [] => [m]
  | x :: xs =>
    if m.startTime ≤ x.startTime then m :: x :: xs else x :: insertByStart m xs

/-- `meetings.sort((a, b) => a.startTime.getTime() - b.startTime.getTime())`:
ascending start time. -/
def sortByStart (l : List Meeting) : List Meeting :=
  l.foldr insertByStart []

/-- `CalendarService.getMeetings(userId, filters)`: with a truthy
`participantId` filter, only that user's participations; otherwise the union
of the meetings the user organizes and the ones they participate in,
deduplicated by id; always sorted by start time. -/
def getMeetings (db : DB) (userId : Nat) (f : CalendarFilters) : List Meeting :=
  if truthyNat f.participantId then
    sortByStart (participantJoin db (f.participantId.getD 0) f)
  else
    let organizerMeetings :=
      db.meetings.filter (fun m => whereMatch f m && decide (m.organizerId = userId))
    let participantMeetingsList := participantJoin db userId f
    sortByStart (dedupById (organizerMeetings ++ participantMeetingsList))

/-- `TimeSlot` of the calendar service. -/
structure TimeSlot where
  start : Nat
  endT : Nat
  available : Bool
  conflictingMeetings : Option (List Meeting) := Option.none
deriving DecidableEq, Repr

/-- One loop iteration of `getAvailableTimeSlots`: the slot starting at `t`
of length `slotDuration` (milliseconds), conflicting with every fetched
meeting it half-openly overlaps (`currentTime < meeting.endTime && slotEnd >
meeting.startTime`); available exactly when no meeting conflicts. -/
def slotAt (existingMeetings : List Meeting) (slotDuration t : Nat) : TimeSlot :=
  let conflicting := existingMeetings.filter (fun m =>
    decide (t < m.endTime) && decide (m.startTime < t + slotDuration))
  { start := t
    endT := t + slotDuration
    available := decide (conflicting.length = 0)
    conflictingMeetings :=
      if conflicting.length > 0 then Option.some conflicting else Option.none }

/-- The `while (currentTime + slotDuration <= endOfDay)` loop of
`getAvailableTimeSlots`, stepping 30 minutes (1800000 ms).  The extra `fuel`
argument is a structural-recursion bound only: `genSlots_spec` below shows
that with the fuel used by `getAvailableTimeSlots` it never runs out, so the
loop semantics is exactly the source's. -/
def genSlots (existingMeetings : List Meeting) (slotDuration endOfDay : Nat) :
    Nat → Nat → List TimeSlot
  | 0, _ => []
  | fuel + 1, t =>
    if t + slotDuration ≤ endOfDay then
      slotAt existingMeetings slotDuration t ::
        genSlots existingMeetings slotDuration endOfDay fuel (t + 1800000)
    else []

/-- `CalendarService.getAvailableTimeSlots(userId, date, duration = 60,
workingHours = { start: 9, end: 17 })`.  `date` is the midnight timestamp of
the requested day; `setHours(h, 0, 0, 0)` yields `date + h * 3600000`.  The
day's meetings are fetched once through `getMeetings` with the working-hours
window as the date range, then the sliding window is generated. -/
def getAvailableTimeSlots (db : DB) (userId : Nat) (date : Nat)
    (duration : Nat := 60) (whStart : Nat := 9) (whEnd : Nat := 17) : List TimeSlot :=
  let startOfDay := date + whStart * 3600000
  let endOfDay := date + whEnd * 3600000
  let existingMeetings := getMeetings db userId
    { startDate := Option.some startOfDay, endDate := Option.some endOfDay }
  genSlots existingMeetings (duration * 60 * 1000) endOfDay (endOfDay + 1) startOfDay

/-! Concrete store fixtures used by the counterexamples and witnesses. -/

/-- An empty store. -/
def dbEmpty : DB := {}

/-- A meeting organized by user 2 with no participant rows at all. -/
def c1Meeting : Meeting :=
  { id := 1, title := "board sync", startTime := 100, endTime := 200, organizerId := 2 }

/-- Store holding only `c1Meeting`. -/
def c1Db : DB := { meetings := [c1Meeting] }

/-- A meeting that starts exactly when the probed window ends. -/
def c2Meeting : Meeting :=
  { id := 3, title := "retro", startTime := 200, endTime := 300, organizerId := 1 }

/-- Store holding only `c2Meeting`. -/
def c2Db : DB := { meetings := [c2Meeting] }

/-- A scheduled meeting whose `isPasswordProtected` flag is set but whose
stored password is absent. -/
def c3Meeting : Meeting :=
  { id := 7, title := "standup", startTime := 1000, endTime := 2000,
    organizerId := 4, isPasswordProtected := true }

/-- Store holding only `c3Meeting`. -/
def c3Db : DB := { meetings := [c3Meeting] }

/-- A password-protected meeting with stored password "Secret1". -/
def c8Meeting : Meeting :=
  { id := 9, title := "demo", startTime := 1000, endTime := 2000,
    organizerId := 5, meetingPassword := Option.some "Secret1",
    isPasswordProtected := true }

/-- Store holding only `c8Meeting`. -/
def c8Db : DB := { meetings := [c8Meeting] }

/-- A deterministic effect environment: clock at 0, random index source
constantly 0, generated channel names empty, no configured Agora app id. -/
def env0 : Env :=
  { now := 0, randIdx := fun _ => ⟨0, by decide⟩, genChannelName := fun _ => "" }

/-- Creation data with invalid times (start not in the future of `env0`). -/
def c4Data : CreateMeetingData := { title := "x", startTime := 0, endTime := 5 }

/-- Creation data requesting a generated password. -/
def c7Data : CreateMeetingData :=
  { title := "t", startTime := 10, endTime := 20, generatePassword := true }

/-- The meeting produced by `createMeeting env0 dbEmpty 1 c7Data`. -/
def c7M : Meeting :=
  createdMeeting env0 dbEmpty 1 c7Data Option.none
    (Option.some (generateMeetingPassword env0.randIdx 8)) true

/-- The store after `createMeeting env0 dbEmpty 1 c7Data`. -/
def c7Db1 : DB := (createMeeting env0 dbEmpty 1 c7Data).1

/-- An already-cancelled meeting organized by user 1. -/
def c5Meeting : Meeting :=
  { id := 2, title := "old", startTime := 100, endTime := 200,
    organizerId := 1, status := MeetingStatus.cancelled }

/-- Store holding only `c5Meeting`. -/
def c5Db : DB := { meetings := [c5Meeting] }

/-- An existing participant row: user-less guest identified by email. -/
def c9Participant : MeetingParticipant :=
  { id := 1, meetingId := 1, userId := 0, email := Option.some "p@example.com",
    name := Option.some "P" }

/-- Store with one meeting and the guest participant above. -/
def c9Db : DB :=
  { meetings := [{ id := 1, title := "m", startTime := 100, endTime := 200, organizerId := 1 }]
    participants := [c9Participant]
    nextMeetingId := 2
    nextParticipantId := 2 }

/-- An add-participants entry repeating the guest's email. -/
def c9Entry : ParticipantEntry := { email := Option.some "p@example.com" }

/-- The user's one existing meeting on day D: 14:00 to 15:00
(milliseconds from the day's midnight). -/
def c6Meeting : Meeting :=
  { id := 11, title := "existing", startTime := 50400000, endTime := 54000000,
    organizerId := 1 }

/-- Store holding only `c6Meeting`. -/
def c6Db : DB := { meetings := [c6Meeting] }

/-- The expected (start, available) projection of the 15 generated slots for
`c6Db`: working hours 9 to 17, duration 60 minutes, 30-minute steps; only the
13:30, 14:00 and 14:30 windows collide with the 14:00 to 15:00 meeting. -/
def c6Expected : List (Nat × Bool) :=
  [(32400000, true), (34200000, true), (36000000, true), (37800000, true),
   (39600000, true), (41400000, true), (43200000, true), (45000000, true),
   (46800000, true), (48600000, false), (50400000, false), (52200000, false),
   (54000000, true), (55800000, true), (57600000, true)]

/-! Helper lemmas shared by the claim theorems. -/

/-- If no element of the first list satisfies the predicate, `find?` over the
concatenation searches only the second list. -/
theorem find?_append_of_none {α : Type} (p : α → Bool) (l1 l2 : List α)
    (h : ∀ x ∈ l1, p x = false) : (l1 ++ l2).find? p = l2.find? p := by
  induction l1 with
  | nil => rfl
  | cons a l ih =>
    have ha := h a (List.mem_cons_self a l)
    simp only [List.cons_append, List.find?, ha]
    exact ih (fun x hx => h x (List.mem_cons_of_mem a hx))

/-- Searching a row by id commutes with an id-preserving per-row mutation. -/
theorem find?_map_of_id (l : List Meeting) (j : Nat) (g : Meeting → Meeting)
    (hgid : ∀ x, (g x).id = x.id) :
    (l.map g).find? (fun m => decide (m.id = j)) =
      (l.find? (fun m => decide (m.id = j))).map g := by
  induction l with
  | nil => rfl
  | cons a l ih =>
    simp only [List.map_cons, List.find?, hgid a]
    cases h : decide (a.id = j)
    · simp only [h]
      exact ih
    · simp only [h]
      rfl

/-- `findMeeting` after `updateMeetingRow`. -/
theorem findMeeting_updateRow (db : DB) (i j : Nat) (f : Meeting → Meeting)
    (hid : ∀ x, (f x).id = x.id) :
    findMeeting (updateMeetingRow db i f) j =
      (findMeeting db j).map (fun m => if m.id = i then f m else m) := by
  unfold findMeeting updateMeetingRow
  exact find?_map_of_id db.meetings j (fun m => if m.id = i then f m else m)
    (fun x => by by_cases hx : x.id = i <;> simp [hx, hid])

/-- A cancelled status survives any `updateMeetingRow` whose mutation
preserves ids and either preserves the status or sets it to cancelled. -/
theorem statusOf_updateRow_cancelled (db : DB) (j : Nat) (f : Meeting → Meeting)
    (hid : ∀ x, (f x).id = x.id)
    (hst : ∀ x, (f x).status = x.status ∨ (f x).status = MeetingStatus.cancelled)
    (i : Nat) (h : statusOf db i = Option.some MeetingStatus.cancelled) :
    statusOf (updateMeetingRow db j f) i = Option.some MeetingStatus.cancelled := by
  unfold statusOf at *
  rw [findMeeting_updateRow db j i f hid]
  cases hf : findMeeting db i with
  | none => rw [hf] at h; simp at h
  | some m =>
    rw [hf] at h
    have hms : m.status = MeetingStatus.cancelled := by simpa using h
    simp only [Option.map_some', Option.some.injEq]
    by_cases hm : m.id = j
    · rw [if_pos hm]
      rcases hst m with h1 | h1
      · rw [h1, hms]
      · exact h1
    · rw [if_neg hm]
      exact hms

/-- `statusOf` depends only on the meetings table. -/
theorem statusOf_eq_of_meetings (db db' : DB) (h : db'.meetings = db.meetings)
    (i : Nat) : statusOf db' i = statusOf db i := by
  unfold statusOf findMeeting
  rw [h]

/-- `updateMeeting` either leaves the store unchanged (an error path) or
applies the partial update to the target row. -/
theorem updateMeeting_state (env : Env) (db : DB) (mid uid : Nat)
    (u : UpdateMeetingData) :
    (updateMeeting env db mid uid u).1 = db ∨
    (updateMeeting env db mid uid u).1 =
      updateMeetingRow db mid (fun mm => applyUpdate mm u) := by
  unfold updateMeeting
  split
  · exact Or.inl rfl
  · split
    · exact Or.inl rfl
    · split
      · exact Or.inl rfl
      · dsimp only
        repeat' split
        all_goals first
          | exact Or.inl rfl
          | exact Or.inr rfl

/-- `cancelMeeting` either leaves the store unchanged or sets the target
row's status to cancelled. -/
theorem cancelMeeting_state (db : DB) (mid uid : Nat) :
    (cancelMeeting db mid uid).1 = db ∨
    (cancelMeeting db mid uid).1 =
      updateMeetingRow db mid
        (fun mm => { mm with status := MeetingStatus.cancelled }) := by
  unfold cancelMeeting
  repeat' split
  all_goals first
    | exact Or.inl rfl
    | exact Or.inr rfl

/-- `updateMeetingPassword` either leaves the store unchanged or applies an
id- and status-preserving mutation to the target row. -/
theorem updateMeetingPassword_state (env : Env) (db : DB) (mid org : Nat)
    (np : Option String) (rp : Bool) :
    (updateMeetingPassword env db mid org np rp).1 = db ∨
    ∃ f, (updateMeetingPassword env db mid org np rp).1 = updateMeetingRow db mid f ∧
      (∀ x, (f x).id = x.id) ∧ (∀ x, (f x).status = x.status) := by
  unfold updateMeetingPassword
  split
  · exact Or.inl rfl
  · split
    · exact Or.inl rfl
    · dsimp only
      repeat' split
      all_goals first
        | exact Or.inl rfl
        | exact Or.inr ⟨_, rfl, fun x => rfl, fun x => rfl⟩

/-- The add-participants loop never touches the meetings table or the
meeting counter. -/
theorem addParticipantsGo_meetings (db : DB) (mid : Nat)
    (es : List ParticipantEntry) :
    (addParticipantsGo db mid es).1.meetings = db.meetings := by
  induction es generalizing db with
  | nil => rfl
  | cons e rest ih =>
    unfold addParticipantsGo
    cases db.participants.find? (participantMatch mid e) with
    | some p => exact ih db
    | none => exact ih _

/-- The add-participants loop extends the participants table by exactly the
created rows, in order. -/
theorem addParticipantsGo_participants (db : DB) (mid : Nat)
    (es : List ParticipantEntry) :
    (addParticipantsGo db mid es).1.participants =
      db.participants ++ (addParticipantsGo db mid es).2 := by
  induction es generalizing db with
  | nil => simp [addParticipantsGo]
  | cons e rest ih =>
    unfold addParticipantsGo
    cases db.participants.find? (participantMatch mid e) with
    | some p => exact ih db
    | none =>
      simp only []
      rw [ih]
      simp [List.append_assoc]

/-- `addParticipants` never touches the meetings table. -/
theorem addParticipants_meetings (db : DB) (mid : Nat)
    (es : List ParticipantEntry) :
    (addParticipants db mid es).1.meetings = db.meetings := by
  unfold addParticipants
  split
  · rfl
  · exact addParticipantsGo_meetings _ _ _

/-- Every row created by the add-participants loop is an invitation for the
given meeting. -/
theorem addParticipantsGo_created (db : DB) (mid : Nat)
    (es : List ParticipantEntry) :
    ∀ p ∈ (addParticipantsGo db mid es).2,
      p.status = ParticipantStatus.invited ∧ p.meetingId = mid := by
  induction es generalizing db with
  | nil => intro p hp; simp [addParticipantsGo] at hp
  | cons e rest ih =>
    intro p hp
    unfold addParticipantsGo at hp
    cases hf : db.participants.find? (participantMatch mid e) with
    | some q => rw [hf] at hp; exact ih db p hp
    | none =>
      rw [hf] at hp
      simp only [List.mem_cons] at hp
      rcases hp with hp | hp
      · subst hp; exact ⟨rfl, rfl⟩
      · exact ih _ p hp

/-- The remove-password branch of `updateMeetingPassword`, fully reduced. -/
theorem updateMeetingPassword_remove (env : Env) (db : DB) (mid org : Nat)
    (m : Meeting) (hfind : findMeeting db mid = Option.some m)
    (horg : m.organizerId = org) :
    updateMeetingPassword env db mid org Option.none true =
      (updateMeetingRow db mid (fun mm =>
        { mm with meetingPassword := Option.none, isPasswordProtected := false }),
       Except.ok
        { m with meetingPassword := Option.none, isPasswordProtected := false }) := by
  unfold updateMeetingPassword
  rw [hfind]
  dsimp only
  rw [if_neg (fun hh => hh horg), if_pos rfl]

/-- Invalid meeting times always produce a 400 validation error. -/
theorem validateMeetingTimes_invalid (now s e : Nat)
    (h : s ≤ now ∨ e ≤ s ∨ e - s > 8 * 60 * 60 * 1000) :
    ∃ err, validateMeetingTimes now s e = Except.error err ∧ err.statusCode = 400 := by
  unfold validateMeetingTimes
  split_ifs with h1 h2 h3
  · exact ⟨_, rfl, rfl⟩
  · exact ⟨_, rfl, rfl⟩
  · exact ⟨_, rfl, rfl⟩
  · omega

/-- Every character of the password alphabet passes the strength regex. -/
theorem passwordCharset_allowed :
    ∀ c ∈ passwordCharset, allowedPasswordChar c = true := by decide

/-- A generated password has exactly the requested length and draws every
character from the alphabet. -/
theorem generateMeetingPassword_chars (randIdx : Nat → Fin 55) (len : Nat) :
    (generateMeetingPassword randIdx len).length = len ∧
    ∀ c ∈ (generateMeetingPassword randIdx len).toList, c ∈ passwordCharset := by
  unfold generateMeetingPassword
  constructor
  · simp [String.length]
  · intro c hc
    simp only [String.toList, String.mk, List.mem_map] at hc
    rcases hc with ⟨i, _, hi⟩
    rw [← hi]
    exact List.get_mem _ _ _

/-- A generated 8-character password satisfies the strength policy. -/
theorem generateMeetingPassword_valid (randIdx : Nat → Fin 55) :
    (validateMeetingPassword (generateMeetingPassword randIdx 8)).isValid = true := by
  rcases generateMeetingPassword_chars randIdx 8 with ⟨hlen, hchars⟩
  simp [validateMeetingPassword, hlen]
  intro c hc
  exact passwordCharset_allowed c (hchars c hc)

/-- With sufficient fuel (which `getAvailableTimeSlots` always supplies) the
slot loop produces exactly the windows `t + 1800000k` whose end fits inside
the working day, each built by `slotAt`. -/
theorem genSlots_get? (ex : List Meeting) (dur endD : Nat) :
    ∀ fuel t, endD + 1 ≤ t + fuel → ∀ k,
      (genSlots ex dur endD fuel t).get? k =
        if t + 1800000 * k + dur ≤ endD then
          Option.some (slotAt ex dur (t + 1800000 * k))
        else Option.none := by
  intro fuel
  induction fuel with
  | zero =>
    intro t hfuel k
    rw [if_neg (by omega)]
    rfl
  | succ fuel ih =>
    intro t hfuel k
    by_cases hg : t + dur ≤ endD
    · cases k with
      | zero =>
        simp only [genSlots, if_pos hg, List.get?]
        rw [if_pos (by omega)]
        norm_num
      | succ k =>
        simp only [genSlots, if_pos hg, List.get?]
        rw [ih (t + 1800000) (by omega) k]
        have harith : t + 1800000 + 1800000 * k = t + 1800000 * (k + 1) := by ring
        rw [harith]
    · cases k with
      | zero =>
        simp only [genSlots, if_neg hg, List.get?]
        rw [if_neg (by omega)]
      | succ k =>
        simp only [genSlots, if_neg hg, List.get?]
        rw [if_neg (by omega)]

/-- A slot is available exactly when no fetched meeting overlaps it under
half-open semantics. -/
theorem slotAt_available (ex : List Meeting) (dur t : Nat) :
    (slotAt ex dur t).available = true ↔
      ∀ m ∈ ex, ¬(t < m.endTime ∧ m.startTime < t + dur) := by
  unfold slotAt
  simp only [decide_eq_true_eq, List.length_eq_zero, List.filter_eq_nil_iff]
  constructor
  · intro h m hm
    have := h m hm
    simp only [Bool.and_eq_true, decide_eq_true_eq] at this
    tauto
  · intro h m hm
    have := h m hm
    simp only [Bool.and_eq_true, decide_eq_true_eq]
    tauto

/-! Claim theorems. -/

/-- C1 (code bug): `checkTimeConflicts` is claimed to return only meetings
the actor organizes or attends with accepted status, but the actor-relation
disjunction — the first `[Op.or]` of the where-clause object literal — is
overwritten by the second `[Op.or]` (the time filter), so the query ignores
the actor entirely.  Concretely: user 1 is neither the organizer of
`c1Meeting` (organized by user 2) nor a participant of anything, yet the
probe over the meeting's own time range returns it. -/
theorem c1_actor_filter_dropped :
    checkTimeConflicts c1Db 1 100 200 Option.none = [c1Meeting] ∧
    actorClause c1Db 1 c1Meeting = false ∧
    c1Meeting.organizerId ≠ 1 ∧
    c1Db.participants = [] := by
  refine ⟨by decide, by decide, by decide, rfl⟩

/-- C2 counterexample: the claim says a candidate meeting that starts exactly
at the probed `end` is NOT a conflict (half-open semantics `M.start < end`),
but the code's inclusive `BETWEEN` reports `c2Meeting` (starting exactly at
200) as a conflict of the window [100, 200]. -/
theorem c2_boundary_counterexample :
    checkTimeConflicts c2Db 1 100 200 Option.none = [c2Meeting] ∧
    ¬(c2Meeting.startTime < 200) := by
  refine ⟨by decide, by decide⟩

/-- C2 (corrected): membership in the conflict list is governed by
closed-interval overlap — for well-formed inputs (`M.start ≤ M.end`,
`start ≤ end`) a stored meeting is returned iff it is not cancelled, not
excluded, and satisfies `M.start ≤ end AND M.end ≥ start` (boundary-touching
meetings included); the actor-relation filter plays no part (see C1). -/
theorem c2_closed_interval_semantics (db : DB) (userId s e : Nat)
    (excl : Option Nat) (m : Meeting)
    (hm : m.startTime ≤ m.endTime) (hse : s ≤ e) :
    m ∈ checkTimeConflicts db userId s e excl ↔
      m ∈ db.meetings ∧ m.status ≠ MeetingStatus.cancelled ∧
      excludeClause excl m = true ∧ m.startTime ≤ e ∧ s ≤ m.endTime := by
  unfold checkTimeConflicts
  rw [List.mem_filter]
  simp only [Bool.and_eq_true, decide_eq_true_eq, timeOverlapClause, Bool.or_eq_true]
  constructor
  · rintro ⟨hmem, ⟨⟨hcanc, hov⟩, hexcl⟩⟩
    exact ⟨hmem, hcanc, hexcl, by omega⟩
  · rintro ⟨hmem, hcanc, hexcl, h1, h2⟩
    exact ⟨hmem, ⟨⟨hcanc, by omega⟩, hexcl⟩⟩

/-- C2 witness: the closed-interval characterization applied to a concrete
store and window. -/
theorem c2_closed_interval_semantics_witness :
    c2Meeting ∈ checkTimeConflicts c2Db 1 100 300 Option.none :=
  (c2_closed_interval_semantics c2Db 1 100 300 Option.none c2Meeting
    (by decide) (by decide)).mpr (by decide)

/-- C3 counterexample: the claim says a password-protected meeting with an
absent password yields the password-required reason, but `c3Meeting` has
`isPasswordProtected = true` with no stored password and a caller supplying
no password is granted access (`Meeting.requiresPassword()` is false). -/
theorem c3_flag_without_password_counterexample :
    c3Meeting.isPasswordProtected = true ∧
    c3Meeting.meetingPassword = Option.none ∧
    validateMeetingAccess c3Db 7 Option.none Option.none =
      { canJoin := true, meeting := Option.some c3Meeting,
        joinInfo := Option.some c3Meeting.getJoinInfo } := by
  refine ⟨rfl, rfl, by decide⟩

/-- C3 (corrected): `validateMeetingAccess` evaluates its checks in the fixed
short-circuit order not-found, cancelled, completed, password gate, guest
gate, grant — with the password gate triggered by
`Meeting.requiresPassword()` (flag AND nonempty stored password) rather than
by the `isPasswordProtected` flag alone. -/
theorem c3_access_check_order (db : DB) (meetingId : Nat)
    (password : Option String) (userId : Option Nat) :
    (findMeeting db meetingId = Option.none →
      validateMeetingAccess db meetingId password userId =
        { canJoin := false, error := Option.some "Meeting not found" }) ∧
    (∀ m, findMeeting db meetingId = Option.some m →
      m.status = MeetingStatus.cancelled →
      validateMeetingAccess db meetingId password userId =
        { canJoin := false, error := Option.some "Meeting has been cancelled" }) ∧
    (∀ m, findMeeting db meetingId = Option.some m →
      m.status ≠ MeetingStatus.cancelled → m.status = MeetingStatus.completed →
      validateMeetingAccess db meetingId password userId =
        { canJoin := false, error := Option.some "Meeting has already ended" }) ∧
    (∀ m, findMeeting db meetingId = Option.some m →
      m.status ≠ MeetingStatus.cancelled → m.status ≠ MeetingStatus.completed →
      m.requiresPassword = true → truthyStr password = false →
      validateMeetingAccess db meetingId password userId =
        { canJoin := false, error := Option.some "Meeting password is required" }) ∧
    (∀ m, findMeeting db meetingId = Option.some m →
      m.status ≠ MeetingStatus.cancelled → m.status ≠ MeetingStatus.completed →
      m.requiresPassword = true → truthyStr password = true →
      m.validatePassword (password.getD "") = false →
      validateMeetingAccess db meetingId password userId =
        { canJoin := false, error := Option.some "Invalid meeting password" }) ∧
    (∀ m, findMeeting db meetingId = Option.some m →
      m.status ≠ MeetingStatus.cancelled → m.status ≠ MeetingStatus.completed →
      (m.requiresPassword = false ∨
        (truthyStr password = true ∧ m.validatePassword (password.getD "") = true)) →
      isParticipantCheck db meetingId userId = false → m.allowGuestAccess = false →
      validateMeetingAccess db meetingId password userId =
        { canJoin := false,
          error := Option.some "Guest access is not allowed for this meeting" }) ∧
    (∀ m, findMeeting db meetingId = Option.some m →
      m.status ≠ MeetingStatus.cancelled → m.status ≠ MeetingStatus.completed →
      (m.requiresPassword = false ∨
        (truthyStr password = true ∧ m.validatePassword (password.getD "") = true)) →
      (isParticipantCheck db meetingId userId = true ∨ m.allowGuestAccess = true) →
      validateMeetingAccess db meetingId password userId =
        { canJoin := true, meeting := Option.some m,
          joinInfo := Option.some m.getJoinInfo }) := by
  refine ⟨?_, ?_, ?_, ?_, ?_, ?_, ?_⟩
  · intro h
    unfold validateMeetingAccess
    rw [h]
  · intro m hm hst
    unfold validateMeetingAccess
    rw [hm]
    simp [hst]
  · intro m hm hnc hst
    unfold validateMeetingAccess
    rw [hm]
    simp [hnc, hst]
  · intro m hm hnc hncp hrp htr
    unfold validateMeetingAccess
    rw [hm]
    simp [hnc, hncp, hrp, htr]
  · intro m hm hnc hncp hrp htr hvp
    unfold validateMeetingAccess
    rw [hm]
    simp [hnc, hncp, hrp, htr, hvp]
  · intro m hm hnc hncp hpw hpart hguest
    unfold validateMeetingAccess
    rw [hm]
    rcases hpw with hpw | ⟨htr, hvp⟩
    · simp [hnc, hncp, hpw, guestGateResult, hpart, hguest]
    · simp [hnc, hncp, htr, hvp, guestGateResult, hpart, hguest]
  · intro m hm hnc hncp hpw hgate
    unfold validateMeetingAccess
    rw [hm]
    rcases hpw with hpw | ⟨htr, hvp⟩
    · rcases hgate with hgate | hgate <;>
        simp [hnc, hncp, hpw, guestGateResult, hgate]
    · rcases hgate with hgate | hgate <;>
        simp [hnc, hncp, htr, hvp, guestGateResult, hgate]

/-- C3 witness: the not-found branch on the empty store. -/
theorem c3_access_check_order_witness :
    validateMeetingAccess dbEmpty 5 Option.none Option.none =
      { canJoin := false, error := Option.some "Meeting not found" } :=
  (c3_access_check_order dbEmpty 5 Option.none Option.none).1 rfl

/-- C4: a `createMeeting` call whose times are invalid — start not strictly
in the future, start at or after end, or duration above 8 hours — returns a
400 error and leaves the store untouched (no Meeting row, no Participant
row). -/
theorem c4_invalid_times_rejected (env : Env) (db : DB) (organizerId : Nat)
    (d : CreateMeetingData)
    (h : d.startTime ≤ env.now ∨ d.endTime ≤ d.startTime ∨
         d.endTime - d.startTime > 8 * 60 * 60 * 1000) :
    (createMeeting env db organizerId d).1 = db ∧
    ∃ err, (createMeeting env db organizerId d).2 = Except.error err ∧
      err.statusCode = 400 := by
  rcases validateMeetingTimes_invalid env.now d.startTime d.endTime h with
    ⟨err, herr, hcode⟩
  unfold createMeeting
  rw [herr]
  exact ⟨rfl, err, rfl, hcode⟩

/-- C4 witness: start time 0 is not in the future of the clock at 0. -/
theorem c4_invalid_times_rejected_witness :
    (createMeeting env0 dbEmpty 1 c4Data).1 = dbEmpty ∧
    ∃ err, (createMeeting env0 dbEmpty 1 c4Data).2 = Except.error err ∧
      err.statusCode = 400 :=
  c4_invalid_times_rejected env0 dbEmpty 1 c4Data (Or.inl (by decide))

/-- C5: cancelling an already-cancelled meeting always errors and changes
nothing; the organizer cancelling an existing non-cancelled meeting succeeds
and the status becomes `cancelled`; and a cancelled status survives every
core mutation — updateMeeting, cancelMeeting, updateMeetingPassword,
updateParticipantResponse and addParticipants never move a meeting out of
`cancelled`. -/
theorem c5_cancelled_is_terminal :
    (∀ db mid uid, statusOf db mid = Option.some MeetingStatus.cancelled →
      (cancelMeeting db mid uid).1 = db ∧
      ∃ err, (cancelMeeting db mid uid).2 = Except.error err) ∧
    (∀ db mid uid m, findMeeting db mid = Option.some m →
      m.organizerId = uid → m.status ≠ MeetingStatus.cancelled →
      (cancelMeeting db mid uid).2 = Except.ok () ∧
      statusOf (cancelMeeting db mid uid).1 mid = Option.some MeetingStatus.cancelled) ∧
    (∀ env db mid uid u i, statusOf db i = Option.some MeetingStatus.cancelled →
      statusOf (updateMeeting env db mid uid u).1 i = Option.some MeetingStatus.cancelled) ∧
    (∀ db mid uid i, statusOf db i = Option.some MeetingStatus.cancelled →
      statusOf (cancelMeeting db mid uid).1 i = Option.some MeetingStatus.cancelled) ∧
    (∀ env db mid org np rp i, statusOf db i = Option.some MeetingStatus.cancelled →
      statusOf (updateMeetingPassword env db mid org np rp).1 i =
        Option.some MeetingStatus.cancelled) ∧
    (∀ env db mid uid st notes i, statusOf db i = Option.some MeetingStatus.cancelled →
      statusOf (updateParticipantResponse env db mid uid st notes).1 i =
        Option.some MeetingStatus.cancelled) ∧
    (∀ db mid es i, statusOf db i = Option.some MeetingStatus.cancelled →
      statusOf (addParticipants db mid es).1 i = Option.some MeetingStatus.cancelled) := by
  refine ⟨?_, ?_, ?_, ?_, ?_, ?_, ?_⟩
  · intro db mid uid h
    have hf : ∃ m, findMeeting db mid = Option.some m ∧
        m.status = MeetingStatus.cancelled := by
      unfold statusOf at h
      cases hm : findMeeting db mid with
      | none => rw [hm] at h; simp at h
      | some m => rw [hm] at h; exact ⟨m, rfl, by simpa using h⟩
    rcases hf with ⟨m, hm, hst⟩
    unfold cancelMeeting
    rw [hm]
    dsimp only
    by_cases ho : m.organizerId ≠ uid
    · rw [if_pos ho]
      exact ⟨rfl, _, rfl⟩
    · rw [if_neg ho, if_pos hst]
      exact ⟨rfl, _, rfl⟩
  · intro db mid uid m hm horg hst
    have hmid : m.id = mid := by
      unfold findMeeting at hm
      simpa using List.find?_some hm
    unfold cancelMeeting
    rw [hm]
    dsimp only
    rw [if_neg (show ¬(m.organizerId ≠ uid) from fun hh => hh horg), if_neg hst]
    refine ⟨rfl, ?_⟩
    unfold statusOf
    rw [findMeeting_updateRow db mid mid
          (fun mm => { mm with status := MeetingStatus.cancelled }) (fun x => rfl), hm]
    simp [hmid]
  · intro env db mid uid u i h
    rcases updateMeeting_state env db mid uid u with heq | heq <;> rw [heq]
    · exact h
    · exact statusOf_updateRow_cancelled db mid (fun mm => applyUpdate mm u)
        (fun x => rfl) (fun x => Or.inl rfl) i h
  · intro db mid uid i h
    rcases cancelMeeting_state db mid uid with heq | heq <;> rw [heq]
    · exact h
    · exact statusOf_updateRow_cancelled db mid
        (fun mm => { mm with status := MeetingStatus.cancelled })
        (fun x => rfl) (fun x => Or.inr rfl) i h
  · intro env db mid org np rp i h
    rcases updateMeetingPassword_state env db mid org np rp with heq | ⟨f, heq, hid, hstf⟩ <;>
      rw [heq]
    · exact h
    · exact statusOf_updateRow_cancelled db mid f hid
        (fun x => Or.inl (hstf x)) i h
  · intro env db mid uid st notes i h
    unfold updateParticipantResponse
    split
    · exact h
    · exact (statusOf_eq_of_meetings db _ rfl i).trans h
  · intro db mid es i h
    unfold addParticipants
    split
    · exact h
    · exact (statusOf_eq_of_meetings db _ (addParticipantsGo_meetings db mid es) i).trans h

/-- C5 witness: cancelling the already-cancelled `c5Meeting` errors without
touching the store. -/
theorem c5_cancelled_is_terminal_witness :
    (cancelMeeting c5Db 2 1).1 = c5Db ∧
    ∃ err, (cancelMeeting c5Db 2 1).2 = Except.error err :=
  c5_cancelled_is_terminal.1 c5Db 2 1 (by decide)

/-- C6: `getAvailableTimeSlots` steps the window start in fixed 30-minute
increments from the working-hours start while `windowStart + duration` fits
before the working-hours end (slot `k` exists iff
`startOfDay + 1800000k + duration ≤ endOfDay`, and is `slotAt` of that
offset); a slot is available exactly when no fetched meeting overlaps it
half-openly; and for an actor with one meeting 14:00 to 15:00, duration 60
and hours 9 to 17, the 14:00 window is unavailable while 13:00 and 15:00 are
available. -/
theorem c6_available_time_slots :
    (∀ (db : DB) (uid date dur whS whE k : Nat),
      (getAvailableTimeSlots db uid date dur whS whE).get? k =
        if date + whS * 3600000 + 1800000 * k + dur * 60 * 1000
            ≤ date + whE * 3600000 then
          Option.some (slotAt
            (getMeetings db uid
              { startDate := Option.some (date + whS * 3600000)
                endDate := Option.some (date + whE * 3600000) })
            (dur * 60 * 1000) (date + whS * 3600000 + 1800000 * k))
        else Option.none) ∧
    (∀ (ex : List Meeting) (dur t : Nat),
      (slotAt ex dur t).available = true ↔
        ∀ m ∈ ex, ¬(t < m.endTime ∧ m.startTime < t + dur)) ∧
    ((getAvailableTimeSlots c6Db 1 0 60 9 17).map (fun s => (s.start, s.available)) =
      c6Expected) := by
  refine ⟨?_, slotAt_available, by decide⟩
  intro db uid date dur whS whE k
  unfold getAvailableTimeSlots
  exact genSlots_get? _ _ _ _ _ (by omega) k

/-- C6 witness: the characterization applied at the 14:00 window (k = 10). -/
theorem c6_available_time_slots_witness :
    (getAvailableTimeSlots c6Db 1 0 60 9 17).get? 10 =
      Option.some (slotAt
        (getMeetings c6Db 1
          { startDate := Option.some 32400000, endDate := Option.some 61200000 })
        3600000 50400000) := by
  have h := c6_available_time_slots.1 c6Db 1 0 60 9 17 10
  simpa using h

/-- C7: a successful `createMeeting` with `generatePassword = true` (and no
truthy custom password) yields `isPasswordProtected = true` and a stored
password satisfying the strength policy (length within 4 to 50, all
characters from the generation alphabet); a subsequent
`updateMeetingPassword(removePassword = true)` by the organizer returns the
meeting with `isPasswordProtected = false` and no password, and persists that
state. -/
theorem c7_password_roundtrip (env env2 : Env) (db : DB) (organizerId : Nat)
    (d : CreateMeetingData) (db1 : DB) (m : Meeting)
    (hok : createMeeting env db organizerId d = (db1, Except.ok m))
    (hgen : d.generatePassword = true)
    (hcust : truthyStr d.customPassword = false)
    (hfresh : ∀ mm ∈ db.meetings, mm.id < db.nextMeetingId) :
    m.isPasswordProtected = true ∧
    (∃ pw, m.meetingPassword = Option.some pw ∧
      (validateMeetingPassword pw).isValid = true ∧
      4 ≤ pw.length ∧ pw.length ≤ 50 ∧
      ∀ c ∈ pw.toList, c ∈ passwordCharset) ∧
    (updateMeetingPassword env2 db1 m.id organizerId Option.none true).2 =
      Except.ok { m with meetingPassword := Option.none, isPasswordProtected := false } ∧
    findMeeting (updateMeetingPassword env2 db1 m.id organizerId Option.none true).1 m.id =
      Option.some { m with meetingPassword := Option.none, isPasswordProtected := false } := by
  have hrp : resolvePassword env d =
      Except.ok (Option.some (generateMeetingPassword env.randIdx 8), true) := by
    unfold resolvePassword
    rw [hgen, hcust]
    simp
  -- Dissect the success path of createMeeting.
  unfold createMeeting at hok
  rw [hrp] at hok
  dsimp only at hok
  split at hok
  · simp [Prod.mk.injEq] at hok
  · by_cases hconf :
      (checkTimeConflicts db organizerId d.startTime d.endTime Option.none).isEmpty = false
    · rw [if_pos hconf] at hok
      simp [Prod.mk.injEq] at hok
    · rw [if_neg hconf] at hok
      split at hok
      · simp [Prod.mk.injEq] at hok
      · rename_i chan hchan
        have hkey : m = createdMeeting env db organizerId d chan
              (Option.some (generateMeetingPassword env.randIdx 8)) true ∧
            db1.meetings = db.meetings ++ [m] := by
          by_cases hpart : d.participants.isEmpty
          · rw [if_pos hpart] at hok
            have h1 := congrArg Prod.fst hok
            have h2 := congrArg Prod.snd hok
            dsimp only at h1 h2
            injection h2 with hm
            refine ⟨hm.symm, ?_⟩
            rw [← h1]
            dsimp only
            rw [hm]
          · rw [if_neg hpart] at hok
            split at hok
            · simp [Prod.mk.injEq] at hok
            · rename_i db2 l hadd
              have h1 := congrArg Prod.fst hok
              have h2 := congrArg Prod.snd hok
              dsimp only at h1 h2
              injection h2 with hm
              refine ⟨hm.symm, ?_⟩
              have hm2 := congrArg (fun p => DB.meetings p.1) hadd
              dsimp only at hm2
              rw [addParticipants_meetings] at hm2
              dsimp only at hm2
              rw [← h1, ← hm2, hm]
        rcases hkey with ⟨hm, hmeet⟩
        subst hm
        -- The created meeting is found in db1 by its fresh id.
        have hfind : findMeeting db1 db.nextMeetingId = Option.some
            (createdMeeting env db organizerId d chan
              (Option.some (generateMeetingPassword env.randIdx 8)) true) := by
          unfold findMeeting
          rw [hmeet]
          rw [find?_append_of_none _ db.meetings _
            (fun x hx => by
              have := hfresh x hx
              simp only [decide_eq_false_iff_not]
              omega)]
          simp [List.find?, createdMeeting]
        rcases generateMeetingPassword_chars env.randIdx 8 with ⟨hlen, hchars⟩
        refine ⟨rfl, ⟨generateMeetingPassword env.randIdx 8, rfl,
          generateMeetingPassword_valid env.randIdx, by omega, by omega, hchars⟩, ?_, ?_⟩
        · rw [show (createdMeeting env db organizerId d chan
              (Option.some (generateMeetingPassword env.randIdx 8)) true).id =
                db.nextMeetingId from rfl,
            updateMeetingPassword_remove env2 db1 db.nextMeetingId organizerId _ hfind rfl]
          rfl
        · rw [show (createdMeeting env db organizerId d chan
              (Option.some (generateMeetingPassword env.randIdx 8)) true).id =
                db.nextMeetingId from rfl,
            updateMeetingPassword_remove env2 db1 db.nextMeetingId organizerId _ hfind rfl]
          dsimp only
          rw [findMeeting_updateRow db1 db.nextMeetingId db.nextMeetingId
            (fun mm => { mm with meetingPassword := Option.none,
                                 isPasswordProtected := false }) (fun x => rfl), hfind]
          simp [createdMeeting]

/-- C7 witness: the round-trip at a concrete creation on the empty store. -/
theorem c7_password_roundtrip_witness :
    c7M.isPasswordProtected = true ∧
    (∃ pw, c7M.meetingPassword = Option.some pw ∧
      (validateMeetingPassword pw).isValid = true ∧
      4 ≤ pw.length ∧ pw.length ≤ 50 ∧
      ∀ c ∈ pw.toList, c ∈ passwordCharset) ∧
    (updateMeetingPassword env0 c7Db1 c7M.id 1 Option.none true).2 =
      Except.ok { c7M with meetingPassword := Option.none, isPasswordProtected := false } ∧
    findMeeting (updateMeetingPassword env0 c7Db1 c7M.id 1 Option.none true).1 c7M.id =
      Option.some { c7M with meetingPassword := Option.none, isPasswordProtected := false } :=
  c7_password_roundtrip env0 env0 dbEmpty 1 c7Data c7Db1 c7M rfl rfl rfl
    (by intro mm hmm; simp [dbEmpty] at hmm)

/-- C8 counterexample: the claim says no result of `validateMeetingAccess`
contains the stored password, but a successful validation returns the full
Meeting record, which carries `meetingPassword` verbatim. -/
theorem c8_result_contains_password :
    (validateMeetingAccess c8Db 9 (Option.some "Secret1") Option.none).canJoin = true ∧
    (validateMeetingAccess c8Db 9 (Option.some "Secret1") Option.none).meeting =
      Option.some c8Meeting ∧
    c8Meeting.meetingPassword = Option.some "Secret1" := by
  refine ⟨by decide, by decide, rfl⟩

/-- C8 (corrected): every denial reason of `validateMeetingAccess` is one of
six fixed strings independent of the stored password; the joinInfo returned
on grant is exactly `Meeting.getJoinInfo` — meeting id, channel name,
provider app id, requires-password flag, guest-access flag — and is invariant
under replacing the stored password by any other password of the same
presence; but the grant result additionally embeds the full Meeting record,
password included. -/
theorem c8_fixed_reasons_and_opaque_joininfo (db : DB) (meetingId : Nat)
    (password : Option String) (userId : Option Nat) :
    (∀ e, (validateMeetingAccess db meetingId password userId).error = Option.some e →
      e ∈ ["Meeting not found", "Meeting has been cancelled",
           "Meeting has already ended", "Meeting password is required",
           "Invalid meeting password",
           "Guest access is not allowed for this meeting"]) ∧
    (∀ ji, (validateMeetingAccess db meetingId password userId).joinInfo = Option.some ji →
      ∃ m, findMeeting db meetingId = Option.some m ∧ ji = m.getJoinInfo) ∧
    (∀ (m : Meeting) (p1 p2 : Option String), truthyStr p1 = truthyStr p2 →
      Meeting.getJoinInfo { m with meetingPassword := p1 } =
        Meeting.getJoinInfo { m with meetingPassword := p2 }) := by
  refine ⟨?_, ?_, ?_⟩
  · intro e he
    unfold validateMeetingAccess guestGateResult at he
    split at he
    · simp at he
      simp [he]
    · repeat' split at he
      all_goals try simp at he
      all_goals try (repeat' split at he)
      all_goals try simp at he
      all_goals simp [he]
  · intro ji hj
    unfold validateMeetingAccess guestGateResult at hj
    split at hj
    · simp at hj
    · rename_i m hm
      repeat' split at hj
      all_goals try simp at hj
      all_goals try (repeat' split at hj)
      all_goals try simp at hj
      all_goals first
        | exact ⟨m, hm, hj⟩
        | exact ⟨m, hm, hj.symm⟩
  · intro m p1 p2 hp
    unfold Meeting.getJoinInfo Meeting.requiresPassword
    simp [hp]

/-- C8 witness: joinInfo is unchanged when the stored password is replaced by
another nonempty password. -/
theorem c8_fixed_reasons_witness :
    Meeting.getJoinInfo { c8Meeting with meetingPassword := Option.some "a" } =
      Meeting.getJoinInfo { c8Meeting with meetingPassword := Option.some "b" } :=
  (c8_fixed_reasons_and_opaque_joininfo c8Db 9 Option.none Option.none).2.2 c8Meeting
    (Option.some "a") (Option.some "b") (by decide)

/-- C9: `addParticipants` silently skips an entry whose key — (meetingId,
userId) for truthy user ids, else (meetingId, email) — already matches an
existing participant row (no error, nothing written); each genuinely new
entry becomes a row with status `invited`, role defaulting to `attendee`, and
the sentinel userId 0 (no real user) when the entry carries no userId; a
successful call appends exactly the created rows. -/
theorem c9_add_participants_dedup_and_defaults :
    (∀ (db : DB) (mid : Nat) (e : ParticipantEntry) (rest : List ParticipantEntry),
      (∃ p ∈ db.participants, participantMatch mid e p = true) →
      addParticipants db mid (e :: rest) = addParticipants db mid rest) ∧
    (∀ (db : DB) (mid : Nat) (e : ParticipantEntry) (rest : List ParticipantEntry),
      (findMeeting db mid).isSome = true →
      db.participants.find? (participantMatch mid e) = Option.none →
      ∃ db2 tail, addParticipants db mid (e :: rest) =
        (db2, Except.ok
          ({ id := db.nextParticipantId, meetingId := mid,
             userId := e.userId.getD 0, email := e.email, name := e.name,
             role := e.role.getD ParticipantRole.attendee,
             status := ParticipantStatus.invited } :: tail))) ∧
    (∀ (db : DB) (mid : Nat) (es : List ParticipantEntry) (db2 : DB)
        (l : List MeetingParticipant),
      addParticipants db mid es = (db2, Except.ok l) →
      db2.participants = db.participants ++ l ∧ db2.meetings = db.meetings) := by
  refine ⟨?_, ?_, ?_⟩
  · intro db mid e rest hex
    rcases hex with ⟨p, hp, hpm⟩
    have hq : ∃ q, db.participants.find? (participantMatch mid e) = Option.some q := by
      rw [← Option.isSome_iff_exists]
      exact List.find?_isSome.mpr ⟨p, hp, hpm⟩
    rcases hq with ⟨q, hq⟩
    have hgo : addParticipantsGo db mid (e :: rest) = addParticipantsGo db mid rest := by
      conv_lhs => rw [addParticipantsGo]
      rw [hq]
    unfold addParticipants
    rw [hgo]
  · intro db mid e rest hsome hnone
    cases hm : findMeeting db mid with
    | none => rw [hm] at hsome; simp at hsome
    | some mm =>
      unfold addParticipants
      rw [hm]
      dsimp only
      unfold addParticipantsGo
      rw [hnone]
      dsimp only
      exact ⟨_, _, rfl⟩
  · intro db mid es db2 l h
    unfold addParticipants at h
    split at h
    · simp [Prod.mk.injEq] at h
    · have h1 := congrArg Prod.fst h
      have h2 := congrArg Prod.snd h
      dsimp only at h1 h2
      injection h2 with h2
      constructor
      · rw [← h1, ← h2]
        exact addParticipantsGo_participants db mid es
      · rw [← h1]
        exact addParticipantsGo_meetings db mid es

/-- C9 witness: re-adding the guest email already present in `c9Db` is a
no-op. -/
theorem c9_add_participants_witness :
    addParticipants c9Db 1 [c9Entry] = addParticipants c9Db 1 [] :=
  c9_add_participants_dedup_and_defaults.1 c9Db 1 c9Entry []
    ⟨c9Participant, by decide, by decide⟩

/-- C10: a meeting whose `isPasswordProtected` flag is set but whose stored
password is absent or empty does not require a password
(`Meeting.requiresPassword()` is false), so `validateMeetingAccess` grants a
caller supplying no password subject only to the status and guest-access
checks; the state is reachable because `updateMeeting` applies the
`isPasswordProtected` flag from its update data directly, without
re-validating password presence. -/
theorem c10_flag_without_stored_password :
    (∀ m : Meeting, m.isPasswordProtected = true →
      truthyStr m.meetingPassword = false → m.requiresPassword = false) ∧
    (∀ (db : DB) (mid : Nat) (uid : Option Nat) (m : Meeting),
      findMeeting db mid = Option.some m →
      m.isPasswordProtected = true → truthyStr m.meetingPassword = false →
      m.status ≠ MeetingStatus.cancelled → m.status ≠ MeetingStatus.completed →
      (isParticipantCheck db mid uid = true ∨ m.allowGuestAccess = true) →
      validateMeetingAccess db mid Option.none uid =
        { canJoin := true, meeting := Option.some m,
          joinInfo := Option.some m.getJoinInfo }) ∧
    (∀ (env : Env) (db : DB) (mid org : Nat) (m : Meeting),
      findMeeting db mid = Option.some m → m.organizerId = org →
      m.canBeModified env.now = true →
      (updateMeeting env db mid org { isPasswordProtected := Option.some true }).2 =
        Except.ok { m with isPasswordProtected := true } ∧
      findMeeting (updateMeeting env db mid org
          { isPasswordProtected := Option.some true }).1 mid =
        Option.some { m with isPasswordProtected := true }) := by
  refine ⟨?_, ?_, ?_⟩
  · intro m hflag hpw
    unfold Meeting.requiresPassword
    rw [hpw]
    simp
  · intro db mid uid m hm hflag hpw hnc hncomp hgate
    have hrp : m.requiresPassword = false := by
      unfold Meeting.requiresPassword
      rw [hpw]
      simp
    unfold validateMeetingAccess guestGateResult
    rw [hm]
    rcases hgate with hgate | hgate <;> simp [hnc, hncomp, hrp, hgate]
  · intro env db mid org m hm horg hmod
    have hmid : m.id = mid := by
      unfold findMeeting at hm
      simpa using List.find?_some hm
    unfold updateMeeting
    rw [hm]
    dsimp only
    rw [if_neg (show ¬(m.organizerId ≠ org) from fun hh => hh horg), hmod]
    simp only [Option.isSome_none, Bool.or_self, Bool.not_true, Bool.false_eq_true,
      if_false]
    constructor
    · rfl
    · rw [findMeeting_updateRow db mid mid
        (fun mm => applyUpdate mm { isPasswordProtected := Option.some true })
        (fun x => rfl), hm]
      simp [hmid, applyUpdate, updField]

/-- C10 witness: `c3Meeting` (flag set, no stored password) requires no
password. -/
theorem c10_flag_without_stored_password_witness :
    c3Meeting.requiresPassword = false :=
  c10_flag_without_stored_password.1 c3Meeting rfl rfl
